import Mathlib

/-! Shallow embedding of the sms-dev message lifecycle and webhook delivery
subsystem (packages/sms-dev-api). Timestamps are modelled as epoch
milliseconds (`Nat`); the source stores ISO strings and compares them via
`new Date(s).getTime()`, which yields exactly these numbers. Fallible or
crashing paths are modelled with `Option`. -/

/-- Message status enumeration (packages/sms-dev-types). -/
inductive MessageStatus where
  | queued
  | sent
  | delivered
  | failed
deriving DecidableEq, Repr

/-- Position of a status in the forward lifecycle order. -/
def statusRank : MessageStatus → Nat
  | .queued => 0
  | .sent => 1
  | .delivered => 2
  | .failed => 3

/-- Message record (packages/sms-dev-types). `from` is a Lean keyword, so the
field is named `from_`. `cost` is the fixed mock cost 0.01. -/
structure Message where
  id : String
  to_ : String
  from_ : String
  body : String
  status : MessageStatus
  created_at : Nat
  delivered_at : Option Nat
  cost : ℚ
deriving DecidableEq, Repr

/-- POST /v1/messages handler (routes/messages.ts): creates the stored record
with status `queued` and no `delivered_at`. The `from` field defaults to the
simulator number `+15551234567` when absent or empty (JavaScript truthiness
of the expression `from || defaultNumber`). -/
def createMessage (to_ : String) (fromOpt : Option String) (body newId : String)
    (now : Nat) : Message :=
  { id := newId
    to_ := to_
    from_ := match fromOpt with
      | none => "+15551234567"
      | some f => if f = "" then "+15551234567" else f
    body := body
    status := .queued
    created_at := now
    delivered_at := none
    cost := 1 / 100 }

/-- First timer callback (500 ms): set status to `sent`. -/
def markSent (m : Message) : Message :=
  { m with status := .sent }

/-- Second timer callback (1000 ms later): set status to `delivered` and stamp
`delivered_at` with the transition time. -/
def markDelivered (m : Message) (t : Nat) : Message :=
  { m with status := .delivered, delivered_at := some t }

/-- Sort used by GET /v1/messages: comparator `(a, b) => bTime - aTime`,
i.e. descending by `created_at`; JavaScript sort is stable, modelled by a
stable merge sort. -/
def sortByCreatedDesc (l : List Message) : List Message :=
  l.mergeSort (fun a b => decide (b.created_at ≤ a.created_at))

/-- Pagination block of a listing response. -/
structure Pagination where
  limit : Nat
  offset : Nat
  total : Nat
  has_more : Bool
deriving DecidableEq, Repr

/-- Response shape of GET /v1/messages. -/
structure ListMessagesResponse where
  messages : List Message
  pagination : Pagination
deriving DecidableEq, Repr

/-- GET /v1/messages handler with no filters: sort all stored messages by
`created_at` descending, slice `[offset, offset + limit)`, and report
`has_more = offset + limit < total`. -/
def listMessages (store : List Message) (limit offset : Nat) :
    ListMessagesResponse :=
  let sorted := sortByCreatedDesc store
  let total := sorted.length
  { messages := (sorted.drop offset).take limit
    pagination :=
      { limit := limit
        offset := offset
        total := total
        has_more := decide (offset + limit < total) } }

/-- Character-list version of string leading-match, kernel-computable. -/
def charsLead : List Char → List Char → Bool
  | [], _ => true
  | _ :: _, [] => false
  | a :: as, b :: bs => if a = b then charsLead as bs else false

/-- Models `message.to.startsWith('+1555')` in GET /v1/dev/conversations. -/
def toStartsWithSim (s : String) : Bool :=
  charsLead "+1555".toList s.toList

/-- Conversation grouping key: the counterparty number — `from` when `to`
starts with the reserved simulator prefix string, otherwise `to`. -/
def conversationKey (m : Message) : String :=
  if toStartsWithSim m.to_ then m.from_ else m.to_

/-- Conversation view (packages/sms-dev-types). -/
structure Conversation where
  phoneNumber : String
  messages : List Message
  lastActivity : Nat
  unreadCount : Nat
deriving DecidableEq, Repr

/-- One step of the grouping loop in GET /v1/dev/conversations: find or
create the keyed conversation (JavaScript `Map` preserves insertion order,
modelled as an ordered list), push the message, and bump `lastActivity`
when the message is strictly newer. -/
def addMessage (acc : List Conversation) (m : Message) : List Conversation :=
  match acc with
  | [] =>
    [{ phoneNumber := conversationKey m
       messages := [m]
       lastActivity := m.created_at
       unreadCount := 0 }]
  | c :: rest =>
    if c.phoneNumber = conversationKey m then
      { c with
        messages := c.messages ++ [m]
        lastActivity :=
          if c.lastActivity < m.created_at then m.created_at
          else c.lastActivity } :: rest
    else
      c :: addMessage rest m

/-- Grouping pass of GET /v1/dev/conversations over the message list. -/
def groupConversations (msgs : List Message) : List Conversation :=
  msgs.foldl addMessage []

/-- GET /v1/dev/conversations: group, then sort by `lastActivity`
descending (stable). -/
def listConversations (msgs : List Message) : List Conversation :=
  (groupConversations msgs).mergeSort
    (fun a b => decide (b.lastActivity ≤ a.lastActivity))

/-- Webhook configuration (services/webhookService.ts). -/
structure WebhookConfig where
  url : Option String
  retries : Nat
  timeout : Nat
  enabled : Bool
deriving DecidableEq, Repr

/-- Payload POSTed to the developer endpoint for an inbound message. -/
structure InboundMessageWebhook where
  id : String
  to_ : String
  from_ : String
  body : String
  received_at : Nat
  type : String
deriving DecidableEq, Repr

/-- Payload construction in sendInboundMessageWebhook /
createSkippedWebhookEvent. -/
def payloadOf (m : Message) : InboundMessageWebhook :=
  { id := m.id
    to_ := m.to_
    from_ := m.from_
    body := m.body
    received_at := m.created_at
    type := "sms" }

/-- One delivery record; `status` is an `Int` so the sentinel `-1` for
skipped deliveries is representable alongside HTTP codes and the `0`
transport-failure sentinel. -/
structure WebhookEvent where
  id : String
  url : String
  payload : InboundMessageWebhook
  status : Int
  timestamp : Nat
  error : Option String
  duration : Nat
deriving DecidableEq, Repr

/-- createSkippedWebhookEvent (webhookService.ts lines 144-161). -/
def createSkippedWebhookEvent (m : Message) (newId : String) (now : Nat) :
    WebhookEvent :=
  { id := newId
    url := "N/A"
    payload := payloadOf m
    status := -1
    timestamp := now
    error := some "Webhook URL not configured"
    duration := 0 }

/-- Outcome of a single HTTP attempt, supplied by the environment: either a
response (any status code, with its body text) or a transport-level failure
(network error or timeout abort) carrying the thrown error message. -/
inductive AttemptResult where
  | response (status : Nat) (bodyText : String)
  | transportError (msg : String)
deriving DecidableEq, Repr

instance {ε α : Type} [DecidableEq ε] [DecidableEq α] :
    DecidableEq (Except ε α) := fun x y =>
  match x, y with
  | .error a, .error b =>
    if h : a = b then .isTrue (by rw [h]) else .isFalse (by simp [h])
  | .ok a, .ok b =>
    if h : a = b then .isTrue (by rw [h]) else .isFalse (by simp [h])
  | .error _, .ok _ => .isFalse (by simp)
  | .ok _, .error _ => .isFalse (by simp)

/-- Observable behaviour of one run of the retry loop: how many attempts
were consumed, the backoff sleeps performed (milliseconds, in order), and
either the thrown last transport error or the returned response. -/
structure RetryTrace where
  attemptsMade : Nat
  delays : List Nat
  outcome : Except String (Nat × String)
deriving DecidableEq, Repr

/-- The `for (attempt = 1; attempt <= retries; attempt++)` loop of
sendWebhookWithRetry. `left` is the number of attempts still permitted
including the current one (`retries - attempt + 1`). A response returns at
once; a transport error is rethrown after the last attempt, with a sleep of
`2 ^ (attempt - 1) * 1000` ms before each following attempt. `left = 0`
means the loop never ran and `throw lastError!` raises `undefined`,
modelled as `none`. -/
def retryLoop (env : Nat → AttemptResult) : Nat → Nat → Option RetryTrace
  | _, 0 => none
  | attempt, left + 1 =>
    match env attempt with
    | .response st bodyText =>
      some { attemptsMade := 1, delays := [], outcome := .ok (st, bodyText) }
    | .transportError msg =>
      match left with
      | 0 => some { attemptsMade := 1, delays := [], outcome := .error msg }
      | l + 1 =>
        match retryLoop env (attempt + 1) (l + 1) with
        | none => none
        | some rest =>
          some { attemptsMade := rest.attemptsMade + 1
                 delays := 2 ^ (attempt - 1) * 1000 :: rest.delays
                 outcome := rest.outcome }

/-- sendWebhookWithRetry (webhookService.ts lines 102-139), starting at
attempt 1 with `retries` attempts allowed. -/
def sendWebhookWithRetry (retries : Nat) (env : Nat → AttemptResult) :
    Option RetryTrace :=
  retryLoop env 1 retries

/-- The guard `!this.config.enabled || !this.config.url`: JavaScript
truthiness makes both a missing and an empty URL falsy. -/
def webhookSkipped (c : WebhookConfig) : Bool :=
  !c.enabled || c.url.getD "" == ""

/-- Mutable fields of WebhookService: the live config and the capped
history buffer (newest first). -/
structure ServiceState where
  config : WebhookConfig
  history : List WebhookEvent
deriving DecidableEq, Repr

/-- The history update in sendInboundMessageWebhook: `unshift` the event,
then `slice(0, 100)` when the length exceeds 100. -/
def pushHistory (h : List WebhookEvent) (ev : WebhookEvent) :
    List WebhookEvent :=
  let h2 := ev :: h
  if h2.length > 100 then h2.take 100 else h2

/-- Everything observable from one call to sendInboundMessageWebhook: the
returned event, the service state afterwards, the `webhook:sent` events
broadcast via socket.io, and the retry trace (`none` when no attempt was
made). -/
structure DeliverResult where
  event : WebhookEvent
  state : ServiceState
  emitted : List WebhookEvent
  trace : Option RetryTrace
deriving DecidableEq, Repr

/-- The attempted-delivery path of sendInboundMessageWebhook (lines 43-97):
build the event from the retry outcome — on a response, `status` is the
HTTP status code and `error` is set exactly when the response is outside
the 200-299 `ok` range; on a caught rethrown transport error, `status` is 0
and `error` is the message (falling back to the string Network error when
the message is empty). The event is then unshifted into the capped history
and broadcast. `elapsed` is the measured wall-clock duration. -/
def deliverAttempted (s : ServiceState) (m : Message) (newId : String)
    (now elapsed : Nat) (tr : RetryTrace) : DeliverResult :=
  let ev : WebhookEvent :=
    match tr.outcome with
    | .ok (st, bodyText) =>
      { id := newId
        url := s.config.url.getD ""
        payload := payloadOf m
        status := (st : Int)
        timestamp := now
        duration := elapsed
        error :=
          if 200 ≤ st ∧ st < 300 then none
          else some ("HTTP " ++ toString st ++ ": " ++ bodyText) }
    | .error msg =>
      { id := newId
        url := s.config.url.getD ""
        payload := payloadOf m
        status := 0
        timestamp := now
        duration := elapsed
        error := some (if msg = "" then "Network error" else msg) }
  { event := ev
    state := { config := s.config, history := pushHistory s.history ev }
    emitted := [ev]
    trace := some tr }

/-- sendInboundMessageWebhook (webhookService.ts lines 37-97). When the
config is disabled or has no URL it returns the skipped event immediately —
before the history/broadcast section of the function — so the state is
untouched and nothing is emitted. Otherwise it runs the retry loop and
finishes through `deliverAttempted`. -/
def sendInboundMessageWebhook (s : ServiceState) (m : Message)
    (newId : String) (now elapsed : Nat) (env : Nat → AttemptResult) :
    Option DeliverResult :=
  if webhookSkipped s.config then
    some { event := createSkippedWebhookEvent m newId now
           state := s
           emitted := []
           trace := none }
  else
    (sendWebhookWithRetry s.config.retries env).map
      (deliverAttempted s m newId now elapsed)

/-- getWebhookHistory: returns a spread copy of the buffer; the state is
untouched (value semantics make the copy explicit as the unchanged second
component). -/
def getWebhookHistory (s : ServiceState) : List WebhookEvent × ServiceState :=
  (s.history, s)

/-- clearWebhookHistory: resets the buffer, leaves the config alone. -/
def clearWebhookHistory (s : ServiceState) : ServiceState :=
  { config := s.config, history := [] }

/-- getConfig (webhookService.ts lines 181-183): a field-by-field spread
copy of the live config — including the literal URL. -/
def getConfig (c : WebhookConfig) : WebhookConfig :=
  { url := c.url, retries := c.retries, timeout := c.timeout,
    enabled := c.enabled }

/-- Shape of the GET /v1/webhooks/config response body. -/
structure WebhookConfigView where
  url : Option String
  enabled : Bool
  retries : Nat
  timeout : Nat
deriving DecidableEq, Repr

/-- GET /v1/webhooks/config handler (routes/webhooks.ts lines 44-54): calls
getConfig and replaces a truthy URL with the marker string and a falsy one
with null. -/
def getConfigHandler (c : WebhookConfig) : WebhookConfigView :=
  let cfg := getConfig c
  { url := if cfg.url.getD "" = "" then none else some "[CONFIGURED]"
    enabled := cfg.enabled
    retries := cfg.retries
    timeout := cfg.timeout }

/-- Well-formedness of one grouped conversation: nonempty, keyed by the
counterparty of each of its messages, `lastActivity` the newest
`created_at`. -/
def convWF (c : Conversation) : Prop :=
  c.messages ≠ [] ∧
  (∀ m ∈ c.messages, conversationKey m = c.phoneNumber) ∧
  c.lastActivity = (c.messages.map Message.created_at).foldl max 0

/-- Concrete inbound reply message, as built by the socket reply handler
(status `delivered` on creation). -/
def m0 : Message :=
  { id := "msg_1", to_ := "+15551234567", from_ := "+15550001111",
    body := "hi", status := .delivered, created_at := 0,
    delivered_at := some 0, cost := 1 / 100 }

/-- Service state with webhooks unconfigured (no URL), as when the server
starts without a webhook option. -/
def s0 : ServiceState :=
  { config := { url := none, retries := 3, timeout := 5000, enabled := true },
    history := [] }

/-- Service state with a configured webhook URL and default retry policy. -/
def s1 : ServiceState :=
  { config := { url := some "http://localhost:9", retries := 3,
                timeout := 5000, enabled := true },
    history := [] }

/-- Environment whose target always answers 200. -/
def env200 : Nat → AttemptResult := fun _ => AttemptResult.response 200 "ok"

/-- Environment whose target always answers 500. -/
def env500 : Nat → AttemptResult := fun _ => AttemptResult.response 500 "oops"

/-- Environment whose target never responds (connection refused on every
attempt). -/
def envDown : Nat → AttemptResult :=
  fun _ => AttemptResult.transportError "connect ECONNREFUSED"

/-- The per-attempt transport error messages of `envDown`. -/
def msgsDown : Nat → String := fun _ => "connect ECONNREFUSED"

/-- The webhook event produced by delivering `m0` against `env200`. -/
def ev200 : WebhookEvent :=
  { id := "whk_3", url := "http://localhost:9", payload := payloadOf m0,
    status := 200, timestamp := 7, error := none, duration := 3 }

/-- The full observable result of that delivery. -/
def res200 : DeliverResult :=
  { event := ev200,
    state := { config := s1.config, history := [ev200] },
    emitted := [ev200],
    trace := some { attemptsMade := 1, delays := [],
                    outcome := Except.ok (200, "ok") } }

/-- Two configs that differ only in the literal URL value. -/
def cfgA : WebhookConfig :=
  { url := some "http://localhost:3001/hook-a", retries := 3, timeout := 5000,
    enabled := true }

/-- See `cfgA`. -/
def cfgB : WebhookConfig :=
  { url := some "http://localhost:3001/hook-b", retries := 3, timeout := 5000,
    enabled := true }

/-- Config with no URL at all. -/
def cfgNone : WebhookConfig :=
  { url := none, retries := 3, timeout := 5000, enabled := true }

/-- Config with an empty-string URL (falsy in JavaScript, like `cfgNone`). -/
def cfgEmpty : WebhookConfig :=
  { url := some "", retries := 3, timeout := 5000, enabled := true }

/-- Three stored messages with distinct creation times. -/
def mA : Message :=
  { id := "msg_a", to_ := "+15550001111", from_ := "+15551234567",
    body := "a", status := .queued, created_at := 10, delivered_at := none,
    cost := 1 / 100 }

/-- See `mA`. -/
def mB : Message :=
  { id := "msg_b", to_ := "+15550001111", from_ := "+15551234567",
    body := "b", status := .queued, created_at := 30, delivered_at := none,
    cost := 1 / 100 }

/-- See `mA`. -/
def mC : Message :=
  { id := "msg_c", to_ := "+15550002222", from_ := "+15551234567",
    body := "c", status := .queued, created_at := 20, delivered_at := none,
    cost := 1 / 100 }

/-- A small concrete message store. -/
def store3 : List Message := [mA, mB, mC]

/-- Running the loop from `attempt` when every attempt in range fails at
transport level: all `left + 1` permitted attempts are consumed, a backoff
sleep precedes each attempt after the first, and the last error message is
rethrown. -/
theorem retryLoop_allFail (env : Nat → AttemptResult) (msgs : Nat → String) :
    ∀ (left attempt : Nat),
    (∀ i, attempt ≤ i → i ≤ attempt + left →
      env i = AttemptResult.transportError (msgs i)) →
    retryLoop env attempt (left + 1) =
      some { attemptsMade := left + 1
             delays := (List.range' attempt left).map (fun i => 2 ^ (i - 1) * 1000)
             outcome := Except.error (msgs (attempt + left)) } := by
  intro left
  induction left with
  | zero =>
    intro attempt hfail
    have h := hfail attempt le_rfl (by omega)
    simp [retryLoop, h]
  | succ l ih =>
    intro attempt hfail
    have hattempt : env attempt = AttemptResult.transportError (msgs attempt) :=
      hfail attempt le_rfl (by omega)
    have hrec := ih (attempt + 1) (fun i h1 h2 => hfail i (by omega) (by omega))
    have harith : attempt + 1 + l = attempt + (l + 1) := by omega
    rw [harith] at hrec
    simp [retryLoop, hattempt, hrec, List.range'_succ]

/-- Running the loop from `attempt` when the `j` attempts starting at
`attempt` fail at transport level and attempt `attempt + j` gets a
response: the loop stops right there with that response, whatever its
status code. -/
theorem retryLoop_respondAt (env : Nat → AttemptResult) (msgs : Nat → String)
    (st : Nat) (bodyText : String) :
    ∀ (j attempt left : Nat), j ≤ left →
    (∀ i, attempt ≤ i → i < attempt + j →
      env i = AttemptResult.transportError (msgs i)) →
    env (attempt + j) = AttemptResult.response st bodyText →
    retryLoop env attempt (left + 1) =
      some { attemptsMade := j + 1
             delays := (List.range' attempt j).map (fun i => 2 ^ (i - 1) * 1000)
             outcome := Except.ok (st, bodyText) } := by
  intro j
  induction j with
  | zero =>
    intro attempt left _ _ hresp
    simp only [Nat.add_zero] at hresp
    simp [retryLoop, hresp]
  | succ j ih =>
    intro attempt left hle hfail hresp
    have hattempt : env attempt = AttemptResult.transportError (msgs attempt) :=
      hfail attempt le_rfl (by omega)
    match left, hle with
    | l + 1, hle =>
      have hresp' : env (attempt + 1 + j) = AttemptResult.response st bodyText := by
        have h : attempt + 1 + j = attempt + (j + 1) := by omega
        rw [h]; exact hresp
      have hfail' : ∀ i, attempt + 1 ≤ i → i < attempt + 1 + j →
          env i = AttemptResult.transportError (msgs i) := by
        intro i h1 h2
        exact hfail i (by omega) (by omega)
      have hrec := ih (attempt + 1) l (by omega) hfail' hresp'
      simp [retryLoop, hattempt, hrec, List.range'_succ]

/-- sendWebhookWithRetry when every one of the `retries` attempts fails at
transport level. -/
theorem sendWebhookWithRetry_allFail (env : Nat → AttemptResult)
    (msgs : Nat → String) (retries : Nat) (hr : 1 ≤ retries)
    (hfail : ∀ i, 1 ≤ i → i ≤ retries →
      env i = AttemptResult.transportError (msgs i)) :
    sendWebhookWithRetry retries env =
      some { attemptsMade := retries
             delays := (List.range' 1 (retries - 1)).map
               (fun i => 2 ^ (i - 1) * 1000)
             outcome := Except.error (msgs retries) } := by
  obtain ⟨R, hR⟩ : ∃ R, retries = R + 1 := ⟨retries - 1, by omega⟩
  have htr := retryLoop_allFail env msgs R 1
    (fun i h1 h2 => hfail i h1 (by omega))
  have harith : 1 + R = retries := by omega
  rw [harith] at htr
  rw [sendWebhookWithRetry, hR, htr]
  have h1 : R + 1 = retries := by omega
  have h2 : R = retries - 1 := by omega
  rw [h1, h2]

/-- sendWebhookWithRetry when attempts `1 .. k - 1` fail at transport level
and attempt `k` receives a response. -/
theorem sendWebhookWithRetry_respondAt (env : Nat → AttemptResult)
    (msgs : Nat → String) (retries k st : Nat) (bodyText : String)
    (hk1 : 1 ≤ k) (hk2 : k ≤ retries)
    (hfail : ∀ i, 1 ≤ i → i < k → env i = AttemptResult.transportError (msgs i))
    (hresp : env k = AttemptResult.response st bodyText) :
    sendWebhookWithRetry retries env =
      some { attemptsMade := k
             delays := (List.range' 1 (k - 1)).map (fun i => 2 ^ (i - 1) * 1000)
             outcome := Except.ok (st, bodyText) } := by
  obtain ⟨R, hR⟩ : ∃ R, retries = R + 1 := ⟨retries - 1, by omega⟩
  have hresp' : env (1 + (k - 1)) = AttemptResult.response st bodyText := by
    have h : 1 + (k - 1) = k := by omega
    rw [h]; exact hresp
  have hfail' : ∀ i, 1 ≤ i → i < 1 + (k - 1) →
      env i = AttemptResult.transportError (msgs i) := by
    intro i h1 h2; exact hfail i h1 (by omega)
  have htr := retryLoop_respondAt env msgs st bodyText (k - 1) 1 R (by omega)
    hfail' hresp'
  have hk' : k - 1 + 1 = k := by omega
  rw [hk'] at htr
  rw [sendWebhookWithRetry, hR]
  exact htr

/-- An enabled config with a nonempty URL is not skipped. -/
theorem webhookSkipped_eq_false {c : WebhookConfig} {u : String}
    (henabled : c.enabled = true) (hurl : c.url = some u) (hu : u ≠ "") :
    webhookSkipped c = false := by
  simp [webhookSkipped, henabled, hurl, hu]

/-- With an enabled, nonempty-URL config, delivery takes the attempted
path. -/
theorem sendInbound_attempted {s : ServiceState} {u : String}
    (henabled : s.config.enabled = true) (hurl : s.config.url = some u)
    (hu : u ≠ "") (m : Message) (newId : String) (now elapsed : Nat)
    (env : Nat → AttemptResult) :
    sendInboundMessageWebhook s m newId now elapsed env =
      (sendWebhookWithRetry s.config.retries env).map
        (deliverAttempted s m newId now elapsed) := by
  simp [sendInboundMessageWebhook, webhookSkipped_eq_false henabled hurl hu]

/-- The unshift-then-slice history update equals a prepend capped at 100. -/
theorem pushHistory_eq_take (h : List WebhookEvent) (ev : WebhookEvent) :
    pushHistory h ev = (ev :: h).take 100 := by
  rw [pushHistory]
  split
  · rfl
  · exact (List.take_of_length_le (by omega)).symm

/-- One grouping step preserves well-formedness of every conversation. -/
theorem addMessage_wf (m : Message) : ∀ (acc : List Conversation),
    (∀ c ∈ acc, convWF c) → ∀ c ∈ addMessage acc m, convWF c := by
  intro acc
  induction acc with
  | nil =>
    intro _ c hc
    simp only [addMessage, List.mem_singleton] at hc
    subst hc
    refine ⟨by simp, by simp, by simp⟩
  | cons c0 rest ih =>
    intro hwf c hc
    rw [addMessage] at hc
    by_cases hkey : c0.phoneNumber = conversationKey m
    · rw [if_pos hkey] at hc
      rcases List.mem_cons.mp hc with hhead | htail
      · subst hhead
        have hwf0 := hwf c0 (List.mem_cons_self c0 rest)
        refine ⟨by simp, ?_, ?_⟩
        · intro m' hm'
          rcases List.mem_append.mp hm' with hold | hnew
          · exact hwf0.2.1 m' hold
          · rw [List.mem_singleton] at hnew
            subst hnew
            exact hkey.symm
        · simp only [List.map_append, List.foldl_append, List.map_cons,
            List.map_nil, List.foldl_cons, List.foldl_nil]
          rw [← hwf0.2.2, Nat.max_def]
          split <;> split <;> omega
      · exact hwf c (List.mem_cons_of_mem c0 htail)
    · rw [if_neg hkey] at hc
      rcases List.mem_cons.mp hc with hhead | htail
      · subst hhead
        exact hwf c (List.mem_cons_self c rest)
      · exact ih (fun c' hc' => hwf c' (List.mem_cons_of_mem c0 hc')) c htail

/-- The whole grouping fold preserves well-formedness. -/
theorem foldl_addMessage_wf :
    ∀ (msgs : List Message) (acc : List Conversation),
    (∀ c ∈ acc, convWF c) → ∀ c ∈ msgs.foldl addMessage acc, convWF c := by
  intro msgs
  induction msgs with
  | nil => intro acc hwf c hc; exact hwf c hc
  | cons m rest ih =>
    intro acc hwf c hc
    exact ih (addMessage acc m) (addMessage_wf m acc hwf) c hc

/-- C1 counterexample: with no webhook URL configured, the skipped event is
returned with its sentinel status and message, but the history stays empty
and nothing is broadcast — the claim that the skipped event is still
appended to history and still broadcast fails on this input. -/
theorem skipped_event_not_recorded_cex :
    ((sendInboundMessageWebhook s0 m0 "whk_1" 5 0 envDown).map
      (fun r => (r.event.status, r.event.error,
        decide (r.event ∈ r.state.history), decide (r.event ∈ r.emitted))))
    = some (-1, some "Webhook URL not configured", false, false) := by
  decide

/-- C1 (amended): when webhooks are disabled or no URL is configured,
delivery returns immediately a WebhookEvent with the skipped sentinel
status `-1` and error Webhook URL not configured; this event is NOT
appended to the webhook history and NOT broadcast — the service state is
returned unchanged and nothing is emitted. -/
theorem skipped_delivery_no_side_effects
    (s : ServiceState) (m : Message) (newId : String) (now elapsed : Nat)
    (env : Nat → AttemptResult) (h : webhookSkipped s.config = true) :
    sendInboundMessageWebhook s m newId now elapsed env =
      some { event := createSkippedWebhookEvent m newId now,
             state := s,
             emitted := [],
             trace := none } ∧
    (createSkippedWebhookEvent m newId now).status = -1 ∧
    (createSkippedWebhookEvent m newId now).error =
      some "Webhook URL not configured" := by
  refine ⟨?_, rfl, rfl⟩
  simp [sendInboundMessageWebhook, h]

/-- Witness for C1 at the concrete unconfigured state `s0`. -/
theorem skipped_delivery_no_side_effects_witness :
    webhookSkipped s0.config = true ∧
    (sendInboundMessageWebhook s0 m0 "whk_1" 5 0 envDown =
      some { event := createSkippedWebhookEvent m0 "whk_1" 5,
             state := s0,
             emitted := [],
             trace := none } ∧
    (createSkippedWebhookEvent m0 "whk_1" 5).status = -1 ∧
    (createSkippedWebhookEvent m0 "whk_1" 5).error =
      some "Webhook URL not configured") :=
  ⟨by decide, skipped_delivery_no_side_effects s0 m0 "whk_1" 5 0 envDown
    (by decide)⟩

/-- C2: when attempts `1 .. k - 1` fail at transport level and attempt `k`
yields an HTTP response of any status code, the retry loop stops at attempt
`k`; the resulting event has `status` equal to the HTTP status code and
`error` set exactly when the response is outside the 200-299 success
range. -/
theorem http_response_terminates_retry_loop
    (s : ServiceState) (m : Message) (newId : String) (now elapsed : Nat)
    (env : Nat → AttemptResult) (msgs : Nat → String) (u : String)
    (k st : Nat) (bodyText : String)
    (henabled : s.config.enabled = true) (hurl : s.config.url = some u)
    (hu : u ≠ "")
    (hk1 : 1 ≤ k) (hk2 : k ≤ s.config.retries)
    (hfail : ∀ i, 1 ≤ i → i < k → env i = AttemptResult.transportError (msgs i))
    (hresp : env k = AttemptResult.response st bodyText) :
    ∃ res, sendInboundMessageWebhook s m newId now elapsed env = some res ∧
      res.trace = some { attemptsMade := k,
                         delays := (List.range' 1 (k - 1)).map
                           (fun i => 2 ^ (i - 1) * 1000),
                         outcome := Except.ok (st, bodyText) } ∧
      res.event.status = (st : Int) ∧
      res.event.error = (if 200 ≤ st ∧ st < 300 then none
        else some ("HTTP " ++ toString st ++ ": " ++ bodyText)) ∧
      (res.event.error.isSome ↔ ¬(200 ≤ st ∧ st < 300)) := by
  have hsend := sendWebhookWithRetry_respondAt env msgs s.config.retries k st
    bodyText hk1 hk2 hfail hresp
  refine ⟨_, by rw [sendInbound_attempted henabled hurl hu, hsend]; rfl,
    ?_, ?_, ?_, ?_⟩
  · simp [deliverAttempted]
  · simp [deliverAttempted]
  · simp [deliverAttempted]
  · simp only [deliverAttempted]
    by_cases hok : 200 ≤ st ∧ st < 300 <;> simp [hok]

/-- Witness for C2: a target answering 500 on the first attempt gives
exactly one attempt, `status = 500`, and a nonempty error. -/
theorem http_response_terminates_retry_loop_witness :
    s1.config.enabled = true ∧ (1 : Nat) ≤ s1.config.retries ∧
    ("HTTP " ++ toString (500 : Nat) ++ ": " ++ "oops") ≠ "" ∧
    (∃ res, sendInboundMessageWebhook s1 m0 "whk_2" 7 3 env500 = some res ∧
      res.trace = some { attemptsMade := 1,
                         delays := (List.range' 1 (1 - 1)).map
                           (fun i => 2 ^ (i - 1) * 1000),
                         outcome := Except.ok (500, "oops") } ∧
      res.event.status = ((500 : Nat) : Int) ∧
      res.event.error = (if 200 ≤ (500 : Nat) ∧ (500 : Nat) < 300 then none
        else some ("HTTP " ++ toString (500 : Nat) ++ ": " ++ "oops")) ∧
      (res.event.error.isSome ↔ ¬(200 ≤ (500 : Nat) ∧ (500 : Nat) < 300))) :=
  ⟨rfl, by decide, by decide,
    http_response_terminates_retry_loop s1 m0 "whk_2" 7 3 env500
      (fun _ => "x") "http://localhost:9" 1 500 "oops" rfl rfl (by decide)
      (by decide) (by decide) (fun i h1 h2 => absurd h2 (by omega)) rfl⟩

/-- C3: when every attempt fails at transport level, exactly `retries`
attempts are made with backoff `2 ^ (attempt - 1)` seconds before each
subsequent attempt; the call still returns (no exception escapes to the
caller) an event whose status is the no-response sentinel `0` and whose
error carries the last transport error message. -/
theorem transport_exhaustion_retries_and_reports
    (s : ServiceState) (m : Message) (newId : String) (now elapsed : Nat)
    (env : Nat → AttemptResult) (msgs : Nat → String) (u : String)
    (henabled : s.config.enabled = true) (hurl : s.config.url = some u)
    (hu : u ≠ "") (hr : 1 ≤ s.config.retries)
    (hfail : ∀ i, 1 ≤ i → i ≤ s.config.retries →
      env i = AttemptResult.transportError (msgs i))
    (hmsg : msgs s.config.retries ≠ "") :
    ∃ res, sendInboundMessageWebhook s m newId now elapsed env = some res ∧
      res.trace = some { attemptsMade := s.config.retries,
                         delays := (List.range' 1 (s.config.retries - 1)).map
                           (fun i => 2 ^ (i - 1) * 1000),
                         outcome := Except.error (msgs s.config.retries) } ∧
      res.event.status = 0 ∧
      res.event.error = some (msgs s.config.retries) := by
  have hsend := sendWebhookWithRetry_allFail env msgs s.config.retries hr hfail
  refine ⟨_, by rw [sendInbound_attempted henabled hurl hu, hsend]; rfl,
    ?_, ?_, ?_⟩
  · simp [deliverAttempted]
  · simp [deliverAttempted]
  · simp [deliverAttempted, hmsg]

/-- Witness for C3 with default `retries = 3` and a target that never
responds: 3 attempts, backoff sleeps of 1000 ms then 2000 ms, sentinel
status 0 and the transport error message. -/
theorem transport_exhaustion_retries_and_reports_witness :
    (1 : Nat) ≤ s1.config.retries ∧
    (List.range' 1 (s1.config.retries - 1)).map (fun i => 2 ^ (i - 1) * 1000)
      = [1000, 2000] ∧
    (∃ res, sendInboundMessageWebhook s1 m0 "whk_5" 7 3 envDown = some res ∧
      res.trace = some { attemptsMade := s1.config.retries,
                         delays := (List.range' 1 (s1.config.retries - 1)).map
                           (fun i => 2 ^ (i - 1) * 1000),
                         outcome := Except.error
                           (msgsDown s1.config.retries) } ∧
      res.event.status = 0 ∧
      res.event.error = some (msgsDown s1.config.retries)) :=
  ⟨by decide, by decide,
    transport_exhaustion_retries_and_reports s1 m0 "whk_5" 7 3 envDown
      msgsDown "http://localhost:9" rfl rfl (by decide) (by decide)
      (fun i h1 h2 => rfl) (by decide)⟩

/-- C4: every attempted delivery appends exactly one event at the front of
the history and broadcasts exactly that event globally; the resulting
buffer never exceeds 100 entries, and when the buffer already holds 100
entries the insertion evicts exactly the oldest (last) entry. -/
theorem webhook_history_capped
    (s : ServiceState) (m : Message) (newId : String) (now elapsed : Nat)
    (env : Nat → AttemptResult) (res : DeliverResult)
    (hskip : webhookSkipped s.config = false)
    (hres : sendInboundMessageWebhook s m newId now elapsed env = some res) :
    res.state.history = pushHistory s.history res.event ∧
    res.state.history.length ≤ 100 ∧
    res.state.history.head? = some res.event ∧
    res.emitted = [res.event] ∧
    (s.history.length = 100 →
      res.state.history = res.event :: s.history.dropLast) := by
  rw [sendInboundMessageWebhook, hskip] at hres
  simp only [Bool.false_eq_true, if_false, Option.map_eq_some'] at hres
  obtain ⟨tr, _, hda⟩ := hres
  subst hda
  have hhist : (deliverAttempted s m newId now elapsed tr).state.history =
      pushHistory s.history (deliverAttempted s m newId now elapsed tr).event :=
    rfl
  have hemit : (deliverAttempted s m newId now elapsed tr).emitted =
      [(deliverAttempted s m newId now elapsed tr).event] := rfl
  refine ⟨hhist, ?_, ?_, hemit, ?_⟩
  · rw [hhist, pushHistory_eq_take, List.length_take]
    omega
  · rw [hhist, pushHistory_eq_take,
      show (100 : Nat) = 99 + 1 from rfl, List.take_succ_cons]
    rfl
  · intro h100
    rw [hhist, pushHistory_eq_take,
      show (100 : Nat) = 99 + 1 from rfl, List.take_succ_cons,
      List.dropLast_eq_take, h100]

/-- Witness for C4 at a concrete delivery against a 200 target. -/
theorem webhook_history_capped_witness :
    webhookSkipped s1.config = false ∧
    (res200.state.history = pushHistory s1.history res200.event ∧
    res200.state.history.length ≤ 100 ∧
    res200.state.history.head? = some res200.event ∧
    res200.emitted = [res200.event] ∧
    (s1.history.length = 100 →
      res200.state.history = res200.event :: s1.history.dropLast)) :=
  ⟨by decide, webhook_history_capped s1 m0 "whk_3" 7 3 env200 res200
    (by decide) (by decide)⟩

/-- C5 counterexample: getConfig returns the literal configured URL, and
two configs equal in everything except the URL literal produce different
getConfig outputs — so getConfig does not return a presence-only redacted
copy. -/
theorem getConfig_reveals_literal_url_cex :
    (getConfig cfgA).url = some "http://localhost:3001/hook-a" ∧
    cfgA.enabled = cfgB.enabled ∧ cfgA.retries = cfgB.retries ∧
    cfgA.timeout = cfgB.timeout ∧ cfgA.url.isSome = cfgB.url.isSome ∧
    getConfig cfgA ≠ getConfig cfgB := by
  refine ⟨rfl, rfl, rfl, rfl, rfl, ?_⟩
  decide

/-- C5 (amended): getConfig returns an unredacted copy of the live config,
literal URL included; the redaction to URL presence happens one layer out,
in the GET /v1/webhooks/config route handler, whose response depends only
on URL presence (never on the literal value). -/
theorem config_redacted_at_route_layer (c c₁ c₂ : WebhookConfig)
    (henabled : c₁.enabled = c₂.enabled) (hretries : c₁.retries = c₂.retries)
    (htimeout : c₁.timeout = c₂.timeout)
    (hpresence : (c₁.url.getD "" = "") ↔ (c₂.url.getD "" = "")) :
    getConfig c = c ∧
    (getConfigHandler c).url =
      (if c.url.getD "" = "" then none else some "[CONFIGURED]") ∧
    getConfigHandler c₁ = getConfigHandler c₂ := by
  refine ⟨rfl, rfl, ?_⟩
  rw [getConfigHandler, getConfigHandler]
  simp only [getConfig]
  by_cases h : c₁.url.getD "" = ""
  · simp [h, hpresence.mp h, henabled, hretries, htimeout]
  · have h2 : ¬(c₂.url.getD "" = "") := fun hh => h (hpresence.mpr hh)
    simp [h, h2, henabled, hretries, htimeout]

/-- Witness for C5: a missing URL and an empty-string URL (both falsy) give
the same route response, and a configured URL is reported as the marker
string only. -/
theorem config_redacted_at_route_layer_witness :
    cfgNone.enabled = cfgEmpty.enabled ∧
    ((cfgNone.url.getD "" = "") ↔ (cfgEmpty.url.getD "" = "")) ∧
    (getConfig cfgA = cfgA ∧
    (getConfigHandler cfgA).url =
      (if cfgA.url.getD "" = "" then none else some "[CONFIGURED]") ∧
    getConfigHandler cfgNone = getConfigHandler cfgEmpty) :=
  ⟨rfl, by decide,
    config_redacted_at_route_layer cfgA cfgNone cfgEmpty rfl rfl rfl
      (by decide)⟩

/-- C6: a created message advances strictly queued, then sent, then
delivered, never moving back, and `delivered_at` is set exactly on entry to
the delivered state, stamped with the transition time. -/
theorem message_lifecycle_monotone
    (to_ : String) (fromOpt : Option String) (body newId : String)
    (now t : Nat) :
    statusRank (createMessage to_ fromOpt body newId now).status <
      statusRank (markSent (createMessage to_ fromOpt body newId now)).status ∧
    statusRank (markSent (createMessage to_ fromOpt body newId now)).status <
      statusRank (markDelivered
        (markSent (createMessage to_ fromOpt body newId now)) t).status ∧
    ((createMessage to_ fromOpt body newId now).delivered_at.isSome ↔
      (createMessage to_ fromOpt body newId now).status = .delivered) ∧
    ((markSent (createMessage to_ fromOpt body newId now)).delivered_at.isSome ↔
      (markSent (createMessage to_ fromOpt body newId now)).status
        = .delivered) ∧
    ((markDelivered (markSent (createMessage to_ fromOpt body newId now))
        t).delivered_at.isSome ↔
      (markDelivered (markSent (createMessage to_ fromOpt body newId now))
        t).status = .delivered) ∧
    (markDelivered (markSent (createMessage to_ fromOpt body newId now))
      t).delivered_at = some t := by
  simp [createMessage, markSent, markDelivered, statusRank]

/-- C7: with no filters, the listing response is the slice
`[offset, offset + limit)` of all stored messages sorted by `created_at`
descending (a permutation of the store, pairwise descending); `total` is
the store size and `offset + limit < total` forces `has_more = true`. -/
theorem listing_sorted_paginated (store : List Message) (limit offset : Nat)
    (h1 : 1 ≤ limit) (h2 : limit ≤ 100) :
    (listMessages store limit offset).messages =
      ((sortByCreatedDesc store).drop offset).take limit ∧
    (sortByCreatedDesc store).Perm store ∧
    List.Pairwise (fun a b => b.created_at ≤ a.created_at)
      (sortByCreatedDesc store) ∧
    (listMessages store limit offset).pagination.total = store.length ∧
    (offset + limit < store.length →
      (listMessages store limit offset).pagination.has_more = true) := by
  have hperm : (sortByCreatedDesc store).Perm store :=
    List.mergeSort_perm store _
  refine ⟨rfl, hperm, ?_, ?_, ?_⟩
  · have hs := @List.sorted_mergeSort Message
      (fun a b : Message => decide (b.created_at ≤ a.created_at))
      (fun a b c hab hbc => by
        simp only [decide_eq_true_eq] at *
        omega)
      (fun a b => by
        simp only [Bool.or_eq_true, decide_eq_true_eq]
        omega)
      store
    exact hs.imp (fun h => by simpa using h)
  · simp only [listMessages]
    exact hperm.length_eq
  · intro h
    simp only [listMessages, decide_eq_true_eq]
    rw [hperm.length_eq]
    exact h

/-- Witness for C7 on a concrete three-message store with limit 2,
offset 1. -/
theorem listing_sorted_paginated_witness :
    (1 : Nat) ≤ 2 ∧ (2 : Nat) ≤ 100 ∧
    ((listMessages store3 2 1).messages =
      ((sortByCreatedDesc store3).drop 1).take 2 ∧
    (sortByCreatedDesc store3).Perm store3 ∧
    List.Pairwise (fun a b => b.created_at ≤ a.created_at)
      (sortByCreatedDesc store3) ∧
    (listMessages store3 2 1).pagination.total = store3.length ∧
    (1 + 2 < store3.length →
      (listMessages store3 2 1).pagination.has_more = true)) :=
  ⟨by decide, by decide, listing_sorted_paginated store3 2 1 (by decide)
    (by decide)⟩

/-- C8: conversation grouping is deterministic (a pure function of the
message list, so regrouping the same set yields identical objects), the
result is sorted by `lastActivity` descending, and every conversation is
keyed by the counterparty of each of its messages with `lastActivity` the
newest `created_at` among them. -/
theorem conversation_grouping_deterministic (msgs : List Message) :
    listConversations msgs = listConversations msgs ∧
    List.Pairwise (fun a b => b.lastActivity ≤ a.lastActivity)
      (listConversations msgs) ∧
    ∀ c ∈ listConversations msgs,
      c.messages ≠ [] ∧
      (∀ m ∈ c.messages, conversationKey m = c.phoneNumber) ∧
      c.lastActivity = (c.messages.map Message.created_at).foldl max 0 := by
  refine ⟨rfl, ?_, ?_⟩
  · have hs := @List.sorted_mergeSort Conversation
      (fun a b : Conversation => decide (b.lastActivity ≤ a.lastActivity))
      (fun a b c hab hbc => by
        simp only [decide_eq_true_eq] at *
        omega)
      (fun a b => by
        simp only [Bool.or_eq_true, decide_eq_true_eq]
        omega)
      (groupConversations msgs)
    exact hs.imp (fun h => by simpa using h)
  · intro c hc
    rw [listConversations, List.mem_mergeSort] at hc
    exact foldl_addMessage_wf msgs [] (by simp) c hc

/-- Witness for C8 on the concrete store. -/
theorem conversation_grouping_deterministic_witness :
    listConversations store3 = listConversations store3 ∧
    List.Pairwise (fun a b => b.lastActivity ≤ a.lastActivity)
      (listConversations store3) ∧
    ∀ c ∈ listConversations store3,
      c.messages ≠ [] ∧
      (∀ m ∈ c.messages, conversationKey m = c.phoneNumber) ∧
      c.lastActivity = (c.messages.map Message.created_at).foldl max 0 :=
  conversation_grouping_deterministic store3

/-- C9: the skipped sentinel is `status = -1` with `url = N/A` and
`duration = 0`; a delivery whose attempts all fail at transport level ends
with `status = 0`; and an event derived from an actual HTTP response (any
status of a real response, at least 100) carries the response status,
which is neither sentinel. -/
theorem sentinel_statuses_distinct
    (s : ServiceState) (m : Message) (newId : String) (now elapsed : Nat)
    (u : String)
    (henabled : s.config.enabled = true) (hurl : s.config.url = some u)
    (hu : u ≠ "") (hr : 1 ≤ s.config.retries) :
    ((createSkippedWebhookEvent m newId now).status = -1 ∧
     (createSkippedWebhookEvent m newId now).url = "N/A" ∧
     (createSkippedWebhookEvent m newId now).duration = 0) ∧
    (∀ (env : Nat → AttemptResult) (msgs : Nat → String),
      (∀ i, 1 ≤ i → i ≤ s.config.retries →
        env i = AttemptResult.transportError (msgs i)) →
      ∃ res, sendInboundMessageWebhook s m newId now elapsed env = some res ∧
        res.event.status = 0) ∧
    (∀ (env : Nat → AttemptResult) (msgs : Nat → String) (k st : Nat)
      (bodyText : String), 1 ≤ k → k ≤ s.config.retries →
      (∀ i, 1 ≤ i → i < k → env i = AttemptResult.transportError (msgs i)) →
      env k = AttemptResult.response st bodyText → 100 ≤ st →
      ∃ res, sendInboundMessageWebhook s m newId now elapsed env = some res ∧
        res.event.status = (st : Int) ∧ res.event.status ≠ 0 ∧
        res.event.status ≠ -1) := by
  refine ⟨⟨rfl, rfl, rfl⟩, ?_, ?_⟩
  · intro env msgs hfail
    have hsend := sendWebhookWithRetry_allFail env msgs s.config.retries hr
      hfail
    exact ⟨_, by rw [sendInbound_attempted henabled hurl hu, hsend]; rfl,
      by simp [deliverAttempted]⟩
  · intro env msgs k st bodyText hk1 hk2 hfail hresp hst
    have hsend := sendWebhookWithRetry_respondAt env msgs s.config.retries k
      st bodyText hk1 hk2 hfail hresp
    refine ⟨_, by rw [sendInbound_attempted henabled hurl hu, hsend]; rfl,
      ?_, ?_, ?_⟩
    · simp [deliverAttempted]
    · simp only [deliverAttempted]
      intro hcontra
      simp at hcontra
      omega
    · simp only [deliverAttempted]
      intro hcontra
      simp at hcontra

/-- Witness for C9 at the concrete configured state `s1`. -/
theorem sentinel_statuses_distinct_witness :
    s1.config.enabled = true ∧ (1 : Nat) ≤ s1.config.retries ∧
    (((createSkippedWebhookEvent m0 "whk_6" 9).status = -1 ∧
     (createSkippedWebhookEvent m0 "whk_6" 9).url = "N/A" ∧
     (createSkippedWebhookEvent m0 "whk_6" 9).duration = 0) ∧
    (∀ (env : Nat → AttemptResult) (msgs : Nat → String),
      (∀ i, 1 ≤ i → i ≤ s1.config.retries →
        env i = AttemptResult.transportError (msgs i)) →
      ∃ res, sendInboundMessageWebhook s1 m0 "whk_6" 9 2 env = some res ∧
        res.event.status = 0) ∧
    (∀ (env : Nat → AttemptResult) (msgs : Nat → String) (k st : Nat)
      (bodyText : String), 1 ≤ k → k ≤ s1.config.retries →
      (∀ i, 1 ≤ i → i < k → env i = AttemptResult.transportError (msgs i)) →
      env k = AttemptResult.response st bodyText → 100 ≤ st →
      ∃ res, sendInboundMessageWebhook s1 m0 "whk_6" 9 2 env = some res ∧
        res.event.status = (st : Int) ∧ res.event.status ≠ 0 ∧
        res.event.status ≠ -1)) :=
  ⟨rfl, by decide,
    sentinel_statuses_distinct s1 m0 "whk_6" 9 2 "http://localhost:9" rfl rfl
      (by decide) (by decide)⟩

/-- C10: reading the history returns the buffer without touching the state;
clearing resets the buffer and leaves the config unchanged; and a completed
delivery changes the state only by (at most) prepending one event to the
capped history, never touching the config. -/
theorem history_access_frame_conditions (s : ServiceState) :
    (getWebhookHistory s).1 = s.history ∧
    (getWebhookHistory s).2 = s ∧
    (clearWebhookHistory s).history = [] ∧
    (clearWebhookHistory s).config = s.config ∧
    (∀ (m : Message) (newId : String) (now elapsed : Nat)
      (env : Nat → AttemptResult) (res : DeliverResult),
      sendInboundMessageWebhook s m newId now elapsed env = some res →
      res.state.config = s.config ∧
      (res.state.history = s.history ∨
        res.state.history = pushHistory s.history res.event)) := by
  refine ⟨rfl, rfl, rfl, rfl, ?_⟩
  intro m newId now elapsed env res hres
  rw [sendInboundMessageWebhook] at hres
  by_cases hskip : webhookSkipped s.config = true
  · rw [if_pos hskip] at hres
    obtain rfl := Option.some.inj hres
    exact ⟨rfl, Or.inl rfl⟩
  · rw [if_neg hskip, Option.map_eq_some'] at hres
    obtain ⟨tr, _, hda⟩ := hres
    subst hda
    exact ⟨rfl, Or.inr rfl⟩

/-- Witness for C10 at the concrete state `s1`. -/
theorem history_access_frame_conditions_witness :
    (getWebhookHistory s1).1 = s1.history ∧
    (getWebhookHistory s1).2 = s1 ∧
    (clearWebhookHistory s1).history = [] ∧
    (clearWebhookHistory s1).config = s1.config ∧
    (∀ (m : Message) (newId : String) (now elapsed : Nat)
      (env : Nat → AttemptResult) (res : DeliverResult),
      sendInboundMessageWebhook s1 m newId now elapsed env = some res →
      res.state.config = s1.config ∧
      (res.state.history = s1.history ∨
        res.state.history = pushHistory s1.history res.event)) :=
  history_access_frame_conditions s1
